import Mathlib

/-!
Verification development for the GSC QuickView analytics pipeline.

The Python sources are shallowly embedded:
- calendar dates are modelled as integers (day numbers), so that
  `(d1 - d2).days` becomes plain integer subtraction;
- wall-clock timestamps are modelled as integers measured in minutes
  (the source only ever compares and subtracts timestamps);
- floats are modelled as rationals (`round(x, 2)` becomes an exact
  round-half-to-even to a multiple of 1/100);
- database tables become Lean lists of records, and the SQL statements
  of `db_persistence.py` become pure state-passing functions on them.
-/

/-- Daily metric row for one property, as returned by the metrics tables.
`clicks`/`impressions`/`position` are nullable columns (`row.get(..., 0) or 0`
in the Python treats missing values as 0). -/
structure MetricRow where
  date : Int
  clicks : Option Nat
  impressions : Option Nat
  position : Option Rat
deriving Repr, DecidableEq

/-- Embeds `ANALYSIS_WINDOW_DAYS = 14` from `src/config/date_windows.py`. -/
def ANALYSIS_WINDOW_DAYS : Int := 14

/-- Modelled from the spec: the constant `HALF_ANALYSIS_WINDOW` is imported by
`backend/src/utils/windows.py` from a `date_windows` config revision that is
not in the tree; the spec fixes it as half the total analysis window
("default 7 of 14"). -/
def HALF_ANALYSIS_WINDOW : Int := 7

/-- Embeds `get_most_recent_date` from `backend/src/utils/windows.py`:
the maximum date of the rows, or `date.today()` (passed here as the
explicit argument `today`) when the list is empty. -/
def get_most_recent_date (rows : List MetricRow) (today : Int) : Int :=
  match (rows.map MetricRow.date).max? with
  | some d => d
  | none => today

/-- Embeds `split_rows_by_window` from `backend/src/utils/windows.py`:
one pass over the rows appending each row to the `last` window when
`0 ≤ days_ago < HALF_ANALYSIS_WINDOW` and to the `previous` window when
`HALF_ANALYSIS_WINDOW ≤ days_ago < ANALYSIS_WINDOW_DAYS`, where
`days_ago = most_recent_date - row.date`. -/
def split_rows_by_window (rows : List MetricRow) (most_recent_date : Int) :
    List MetricRow × List MetricRow :=
  match rows with
  | [] => ([], [])
  | row :: rest =>
    let lp := split_rows_by_window rest most_recent_date
    let days_ago := most_recent_date - row.date
    if 0 ≤ days_ago ∧ days_ago < HALF_ANALYSIS_WINDOW then
      (row :: lp.1, lp.2)
    else if HALF_ANALYSIS_WINDOW ≤ days_ago ∧ days_ago < ANALYSIS_WINDOW_DAYS then
      (lp.1, row :: lp.2)
    else
      (lp.1, lp.2)

/-- Accumulator of the `for row in rows` loop in `aggregate_metrics`. -/
structure AggState where
  clicks : Nat
  impressions : Nat
  position_sum : Rat
  position_days : Nat
deriving Repr, DecidableEq

/-- One iteration of the `aggregate_metrics` loop: add clicks and impressions
(`None` counts as 0), and add the position only when the row reports one. -/
def aggStep (acc : AggState) (row : MetricRow) : AggState :=
  { clicks := acc.clicks + row.clicks.getD 0
    impressions := acc.impressions + row.impressions.getD 0
    position_sum := acc.position_sum + (match row.position with | some p => p | none => 0)
    position_days := acc.position_days + (match row.position with | some _ => 1 | none => 0) }

/-- Result record of `aggregate_metrics`. -/
structure AggResult where
  clicks : Nat
  impressions : Nat
  ctr : Rat
  avg_position : Rat
  days_with_data : Nat
deriving Repr, DecidableEq

/-- Embeds `aggregate_metrics` from `backend/src/utils/windows.py`: sums
clicks and impressions, recomputes `ctr = clicks / impressions` (0 when there
are no impressions), averages the positions over the rows that report one
(0 when none does), and counts the distinct dates. -/
def aggregate_metrics (rows : List MetricRow) : AggResult :=
  let s := rows.foldl aggStep ⟨0, 0, 0, 0⟩
  { clicks := s.clicks
    impressions := s.impressions
    ctr := if s.impressions > 0 then (s.clicks : Rat) / (s.impressions : Rat) else 0
    avg_position := if s.position_days > 0 then s.position_sum / (s.position_days : Rat) else 0
    days_with_data := (rows.map MetricRow.date).dedup.length }

/-- Round-half-to-even to an integer, CPython's rounding mode for `round`. -/
def roundHalfEven (x : Rat) : Int :=
  let f := ⌊x⌋
  let frac := x - (f : Rat)
  if frac < 1/2 then f
  else if 1/2 < frac then f + 1
  else if f % 2 = 0 then f else f + 1

/-- Models Python's `round(x, 2)`: round to the nearest multiple of 1/100,
ties to even. -/
def pyRound2 (x : Rat) : Rat := (roundHalfEven (x * 100) : Rat) / 100

/-- Embeds `safe_delta_pct` from `backend/src/utils/metrics.py`:
`round(((current - previous) / previous) * 100, 2)` when `previous > 0`,
else 100.0 when `current > 0`, else 0.0. -/
def safe_delta_pct (current previous : Rat) : Rat :=
  if previous > 0 then pyRound2 ((current - previous) / previous * 100)
  else if current > 0 then 100
  else 0

/-- The 7v7 comparison record built by `compute_7v7_comparison` in
`backend/src/alert_detector.py` (the fields the detector reads). -/
structure Comparison where
  prev_7_impressions : Nat
  last_7_impressions : Nat
  delta_pct : Rat
deriving Repr, DecidableEq

/-- Embeds `should_trigger_alert` from `backend/src/alert_detector.py`:
noise filtering `prev_7 < 100 → false`, then threshold `delta_pct ≤ -10 → true`. -/
def should_trigger_alert (c : Comparison) : Bool :=
  if c.prev_7_impressions < 100 then false
  else if c.delta_pct ≤ -10 then true
  else false

/-- Embeds `compute_7v7_comparison` from `backend/src/alert_detector.py`
with the database fetch abstracted to the explicit `metrics` argument:
`None` on no metrics, else split on the most recent date, aggregate both
windows, and take `safe_delta_pct(last_7_impressions, prev_7_impressions)`. -/
def compute_7v7_comparison (metrics : List MetricRow) (today : Int) : Option Comparison :=
  match metrics with
  | [] => none
  | _ :: _ =>
    let most_recent_date := get_most_recent_date metrics today
    let lp := split_rows_by_window metrics most_recent_date
    let last_agg := aggregate_metrics lp.1
    let prev_agg := aggregate_metrics lp.2
    some { prev_7_impressions := prev_agg.impressions
           last_7_impressions := last_agg.impressions
           delta_pct := safe_delta_pct (last_agg.impressions : Rat) (prev_agg.impressions : Rat) }

/-- Alert row of the `alerts` table, as inserted by `insert_alert` in
`src/db_persistence.py` (`triggered_at` is in minutes as integers, `email_sent` starts
false). -/
structure Alert where
  id : Nat
  account_id : Nat
  property_id : Nat
  alert_type : String
  prev_7_impressions : Nat
  last_7_impressions : Nat
  delta_pct : Rat
  triggered_at : Int
  email_sent : Bool
deriving Repr, DecidableEq

/-- Key predicate of the dedup query: same `(account, property, alert_type)`. -/
def matchesAlertKey (account property : Nat) (ty : String) (a : Alert) : Bool :=
  decide (a.account_id = account) && decide (a.property_id = property) &&
    decide (a.alert_type = ty)

/-- Embeds `insert_alert` from `src/db_persistence.py`: append a row with
`triggered_at = NOW()`, `email_sent = false`, returning the fresh id
(modelled as the table length). -/
def insert_alert (now : Int) (account property : Nat) (ty : String) (c : Comparison)
    (alerts : List Alert) : List Alert × Nat :=
  let newId := alerts.length
  (alerts ++ [{ id := newId, account_id := account, property_id := property,
                alert_type := ty, prev_7_impressions := c.prev_7_impressions,
                last_7_impressions := c.last_7_impressions, delta_pct := c.delta_pct,
                triggered_at := now, email_sent := false }], newId)

/-- Modelled from the spec: the persistence method `fetch_recent_alert`
called by `backend/src/alert_detector.py` is absent from the tree; per the
spec it queries for an existing alert of the same
`(account, property, alert_type)` triggered within the last `hours` hours
(times here are in minutes). -/
def fetch_recent_alert (now : Int) (account property : Nat) (ty : String) (hours : Int)
    (alerts : List Alert) : Option Alert :=
  alerts.find? (fun a => matchesAlertKey account property ty a &&
    decide (now - a.triggered_at < hours * 60))

/-- Embeds `detect_alert_for_property` from `backend/src/alert_detector.py`
(database fetches abstracted to the `metrics` and `alerts` arguments):
compute the 7v7 comparison; if the trigger predicate holds, skip when a
recent alert of the same key exists within 24 hours, otherwise insert a new
alert and return its id. -/
def detect_alert_for_property (now : Int) (today : Int) (account property : Nat)
    (metrics : List MetricRow) (alerts : List Alert) : List Alert × Option Nat :=
  match compute_7v7_comparison metrics today with
  | none => (alerts, none)
  | some comparison =>
    if should_trigger_alert comparison then
      match fetch_recent_alert now account property "impression_drop" 24 alerts with
      | some _ => (alerts, none)
      | none =>
        let r := insert_alert now account property "impression_drop" comparison alerts
        (r.1, some r.2)
    else
      (alerts, none)

/-- Lifecycle state of one `alert_deliveries` row. -/
inductive DeliveryState where
  | unsent
  | sent
  | suppressed
deriving Repr, DecidableEq

/-- Delivery row: one recipient's tracked send attempt for one alert. -/
structure AlertDelivery where
  id : Nat
  alert_id : Nat
  account_id : Nat
  email : String
  state : DeliveryState
  sent_at : Option Int
deriving Repr, DecidableEq

/-- Tables read by the dispatcher. -/
structure DispatchDB where
  alerts : List Alert
  deliveries : List AlertDelivery
deriving Repr, DecidableEq

/-- Embeds `COOLDOWN_DAYS = 3` from `backend/src/alert_dispatcher.py`. -/
def COOLDOWN_DAYS : Int := 3

/-- Modelled from the spec: the persistence method `is_recipient_in_cooldown`
called by `backend/src/alert_dispatcher.py` is absent from the tree; per the
spec it checks whether the recipient has a `sent` delivery for the same
`(account, property)` whose actual send time `sent_at` lies within the last
`days` days (times here are in minutes, so `days * 1440`). -/
def is_recipient_in_cooldown (now : Int) (email : String) (account property : Nat)
    (days : Int) (db : DispatchDB) : Bool :=
  db.deliveries.any (fun d =>
    decide (d.account_id = account) && decide (d.email = email) &&
    decide (d.state = DeliveryState.sent) &&
    db.alerts.any (fun a => decide (a.id = d.alert_id) && decide (a.property_id = property)) &&
    (match d.sent_at with
     | some t => decide (now - t < days * 1440)
     | none => false))

/-- Modelled from the spec: persistence method `mark_delivery_suppressed`
(absent from the tree) finalizes the delivery as `suppressed`. -/
def mark_delivery_suppressed (db : DispatchDB) (deliveryId : Nat) : DispatchDB :=
  { db with deliveries := db.deliveries.map (fun d =>
      if d.id = deliveryId then { d with state := DeliveryState.suppressed } else d) }

/-- Modelled from the spec: persistence method `mark_delivery_sent`
(absent from the tree) finalizes the delivery as `sent` with `sent_at = NOW()`. -/
def mark_delivery_sent (now : Int) (db : DispatchDB) (deliveryId : Nat) : DispatchDB :=
  { db with deliveries := db.deliveries.map (fun d =>
      if d.id = deliveryId then { d with state := DeliveryState.sent, sent_at := some now } else d) }

/-- Embeds the per-delivery body of STEP 6 of `dispatch_pending_alerts` in
`backend/src/alert_dispatcher.py`: recipients in cooldown are marked
suppressed with no provider send; otherwise a send is attempted
(`providerAccepted` models `response.status_code == 202`; on failure the
delivery is left unsent for the next cron cycle). The boolean returned
alongside the new state records whether a provider send was attempted. -/
def process_unsent_delivery (now : Int) (db : DispatchDB) (alert : Alert)
    (d : AlertDelivery) (providerAccepted : Bool) : DispatchDB × Bool :=
  if is_recipient_in_cooldown now d.email alert.account_id alert.property_id COOLDOWN_DAYS db then
    (mark_delivery_suppressed db d.id, false)
  else if providerAccepted then
    (mark_delivery_sent now db d.id, true)
  else
    (db, true)

/-- Row of the `pipeline_runs` table (`src/db_persistence.py`); timestamps in
minutes. Nullable columns are `Option`s; the insert in `start_pipeline_run`
fills only `account_id, is_running, phase, started_at, updated_at`. -/
structure PipelineRun where
  id : Nat
  account_id : Nat
  is_running : Bool
  phase : String
  current_step : Option String
  progress_current : Option Int
  progress_total : Option Int
  completed_steps : Option (List String)
  error : Option String
  started_at : Int
  completed_at : Option Int
  updated_at : Int
deriving Repr, DecidableEq

/-- Embeds `start_pipeline_run` from `src/db_persistence.py`: inside one
transaction, `SELECT ... WHERE account_id = a AND is_running = true FOR
UPDATE`; if a row is found, roll back and raise `"Pipeline is already
running for this account"`; else insert a fresh active run. The transaction
is modelled as one atomic step on the table. -/
def start_pipeline_run (now : Int) (freshId : Nat) (db : List PipelineRun)
    (account : Nat) : List PipelineRun × Except String Nat :=
  if db.any (fun r => decide (r.account_id = account) && r.is_running) then
    (db, Except.error "Pipeline is already running for this account")
  else
    (db ++ [{ id := freshId, account_id := account, is_running := true, phase := "setup",
              current_step := none, progress_current := none, progress_total := none,
              completed_steps := none, error := none, started_at := now,
              completed_at := none, updated_at := now }], Except.ok freshId)

/-- Value of one SET column: the supplied argument when it is not None,
otherwise the column keeps its previous value. -/
def sqlSet {a : Type} (arg old : Option a) : Option a :=
  match arg with
  | some v => some v
  | none => old

/-- Embeds `update_pipeline_state` from `src/db_persistence.py`: the SET list
contains exactly the columns whose argument is not `None`, plus
`updated_at = now()`; the WHERE clause is `id = run_id AND account_id =
account_id` (note: no `is_running` condition appears in the source). -/
def update_pipeline_state (now : Int) (db : List PipelineRun) (account_id run_id : Nat)
    (is_running : Option Bool) (phase : Option String) (current_step : Option String)
    (progress_current : Option Int) (progress_total : Option Int)
    (completed_steps : Option (List String)) (error : Option String)
    (completed_at : Option Int) : List PipelineRun :=
  db.map (fun r =>
    if r.id = run_id ∧ r.account_id = account_id then
      { r with
        is_running := is_running.getD r.is_running
        phase := phase.getD r.phase
        current_step := sqlSet current_step r.current_step
        progress_current := sqlSet progress_current r.progress_current
        progress_total := sqlSet progress_total r.progress_total
        completed_steps := sqlSet completed_steps r.completed_steps
        error := sqlSet error r.error
        completed_at := sqlSet completed_at r.completed_at
        updated_at := now }
    else r)

/-- Number of active runs an account holds in the table. -/
def activeRunCount (db : List PipelineRun) (account : Nat) : Nat :=
  db.countP (fun r => decide (r.account_id = account) && r.is_running)

/-- The single-flight invariant: at most one `is_running = true` row per
account. -/
def singleFlightInv (db : List PipelineRun) : Prop :=
  ∀ account, activeRunCount db account ≤ 1

/-- Modelled from the spec: staleness predicate of the reap pass — heartbeat
(`updated_at`) older than 20 minutes, or total age (`now - started_at`) over
2 hours. The reaping method itself (`cleanup_stale_runs`, called by
`src/verify_hardening.py`) is absent from the tree. -/
def run_is_stale (now : Int) (r : PipelineRun) : Bool :=
  r.is_running && (decide (now - r.updated_at > 20) || decide (now - r.started_at > 120))

/-- Witness row family: 14 consecutive daily rows anchored at date 13. -/
def mkRow14 (i : Nat) : MetricRow :=
  { date := 13 - (i : Int), clicks := none, impressions := none, position := none }

/-- Concrete two-row window used to witness the aggregation claim. -/
def aggRows : List MetricRow :=
  [{ date := 0, clicks := some 3, impressions := some 10, position := some 2 },
   { date := 1, clicks := none, impressions := some 5, position := none }]

/-- Concrete stale run: at `now = 30` its heartbeat (`updated_at = 9`) is 21
minutes old, beyond the 20-minute soft threshold, while the run is still
flagged active. -/
def staleRun : PipelineRun :=
  { id := 1, account_id := 7, is_running := true, phase := "ingestion",
    current_step := none, progress_current := none, progress_total := none,
    completed_steps := none, error := none, started_at := 0,
    completed_at := none, updated_at := 9 }

/-- Concrete finished run whose `current_step` is the test's `"Step 1"`. -/
def finishedRun : PipelineRun :=
  { id := 1, account_id := 7, is_running := false, phase := "completed",
    current_step := some "Step 1", progress_current := none, progress_total := none,
    completed_steps := none, error := none, started_at := 0,
    completed_at := some 10, updated_at := 10 }

/-- Concrete active run carrying a non-null error, used to witness the
frame property of the update. -/
def baseRun : PipelineRun :=
  { id := 3, account_id := 4, is_running := true, phase := "setup",
    current_step := none, progress_current := none, progress_total := none,
    completed_steps := none, error := some "boom", started_at := 0,
    completed_at := none, updated_at := 5 }

/-- Witness metrics: 14 consecutive daily rows, the most recent 7 days at 50
impressions per day and the 7 days before at 100 per day, a 50 percent drop. -/
def wMetrics : List MetricRow :=
  [⟨13, none, some 50, none⟩, ⟨12, none, some 50, none⟩, ⟨11, none, some 50, none⟩,
   ⟨10, none, some 50, none⟩, ⟨9, none, some 50, none⟩, ⟨8, none, some 50, none⟩,
   ⟨7, none, some 50, none⟩, ⟨6, none, some 100, none⟩, ⟨5, none, some 100, none⟩,
   ⟨4, none, some 100, none⟩, ⟨3, none, some 100, none⟩, ⟨2, none, some 100, none⟩,
   ⟨1, none, some 100, none⟩, ⟨0, none, some 100, none⟩]

/-- Alert being dispatched in the cooldown witness. -/
def wAlert : Alert := ⟨10, 1, 2, "impression_drop", 700, 350, -50, 0, false⟩

/-- Earlier alert on the same property, already dispatched. -/
def wOldAlert : Alert := ⟨9, 1, 2, "impression_drop", 500, 400, -20, -2000, true⟩

/-- Delivery of the earlier alert, sent one day before `now = 0`. -/
def wSentDelivery : AlertDelivery :=
  ⟨5, 9, 1, "alerts@example.com", DeliveryState.sent, some (-1440)⟩

/-- The unsent delivery the dispatcher is processing in the witness. -/
def wUnsentDelivery : AlertDelivery :=
  ⟨6, 10, 1, "alerts@example.com", DeliveryState.unsent, none⟩

/-- Dispatcher tables of the cooldown witness. -/
def wDispatchDB : DispatchDB :=
  ⟨[wOldAlert, wAlert], [wSentDelivery, wUnsentDelivery]⟩

/-- Variant of the sent delivery whose send is older than 3 days. -/
def wOldSentDelivery : AlertDelivery :=
  ⟨5, 9, 1, "alerts@example.com", DeliveryState.sent, some (-5000)⟩

/-- Dispatcher tables where the only matching send is older than 3 days. -/
def wStaleDB : DispatchDB :=
  ⟨[wOldAlert, wAlert], [wOldSentDelivery, wUnsentDelivery]⟩

/-- First component of the window split: the rows whose `days_ago` lies in
`[0, HALF_ANALYSIS_WINDOW)`, in input order. -/
theorem split_rows_by_window_fst (rows : List MetricRow) (D : Int) :
    (split_rows_by_window rows D).1 =
      rows.filter (fun r => decide (0 ≤ D - r.date ∧ D - r.date < HALF_ANALYSIS_WINDOW)) := by
  induction rows with
  | nil => rfl
  | cons r rest ih =>
    simp only [split_rows_by_window]
    rw [List.filter_cons]
    by_cases h1 : 0 ≤ D - r.date ∧ D - r.date < HALF_ANALYSIS_WINDOW
    · rw [if_pos h1, if_pos (decide_eq_true h1)]
      dsimp only
      rw [ih]
    · rw [if_neg h1,
        if_neg (show ¬ (decide (0 ≤ D - r.date ∧ D - r.date < HALF_ANALYSIS_WINDOW) = true)
          by simpa using h1),
        apply_ite Prod.fst]
      dsimp only
      rw [ite_self, ih]

/-- Second component of the window split: the rows whose `days_ago` lies in
`[HALF_ANALYSIS_WINDOW, ANALYSIS_WINDOW_DAYS)`, in input order. -/
theorem split_rows_by_window_snd (rows : List MetricRow) (D : Int) :
    (split_rows_by_window rows D).2 =
      rows.filter (fun r => decide (HALF_ANALYSIS_WINDOW ≤ D - r.date ∧
        D - r.date < ANALYSIS_WINDOW_DAYS)) := by
  induction rows with
  | nil => rfl
  | cons r rest ih =>
    simp only [split_rows_by_window]
    rw [List.filter_cons]
    by_cases h2 : HALF_ANALYSIS_WINDOW ≤ D - r.date ∧ D - r.date < ANALYSIS_WINDOW_DAYS
    · have h1 : ¬ (0 ≤ D - r.date ∧ D - r.date < HALF_ANALYSIS_WINDOW) :=
        fun h => absurd h2.1 (not_le.mpr h.2)
      rw [if_neg h1, if_pos h2, if_pos (decide_eq_true h2)]
      dsimp only
      rw [ih]
    · rw [if_neg (show ¬ (decide (HALF_ANALYSIS_WINDOW ≤ D - r.date ∧
          D - r.date < ANALYSIS_WINDOW_DAYS) = true) by simpa using h2),
        apply_ite Prod.snd, apply_ite Prod.snd]
      dsimp only
      rw [if_neg h2, ite_self, ih]

/-- Componentwise value of the aggregation loop: starting from `init`, the
accumulator gains the sum of clicks, the sum of impressions, the sum of the
reported positions, and the number of rows reporting a position. -/
theorem aggStep_foldl (rows : List MetricRow) (init : AggState) :
    (rows.foldl aggStep init).clicks = init.clicks + (rows.map (fun r => r.clicks.getD 0)).sum ∧
    (rows.foldl aggStep init).impressions
      = init.impressions + (rows.map (fun r => r.impressions.getD 0)).sum ∧
    (rows.foldl aggStep init).position_sum
      = init.position_sum + (rows.filterMap MetricRow.position).sum ∧
    (rows.foldl aggStep init).position_days
      = init.position_days + (rows.filterMap MetricRow.position).length := by
  induction rows generalizing init with
  | nil => simp
  | cons r rest ih =>
    refine ⟨?_, ?_, ?_, ?_⟩
    · rw [List.foldl_cons, (ih (aggStep init r)).1]
      simp only [aggStep, List.map_cons, List.sum_cons]
      omega
    · rw [List.foldl_cons, (ih (aggStep init r)).2.1]
      simp only [aggStep, List.map_cons, List.sum_cons]
      omega
    · rw [List.foldl_cons, (ih (aggStep init r)).2.2.1]
      cases hp : r.position with
      | none => simp [aggStep, hp, List.filterMap_cons]
      | some p =>
        simp only [aggStep, hp, List.filterMap_cons, List.sum_cons]
        ring
    · rw [List.foldl_cons, (ih (aggStep init r)).2.2.2]
      cases hp : r.position with
      | none => simp [aggStep, hp, List.filterMap_cons]
      | some p =>
        simp only [aggStep, hp, List.filterMap_cons, List.length_cons]
        omega

/-- C6: for rows split against an anchor date `D`, a row lands in the last
window exactly when `0 ≤ (D - row.date) < 7` and in the previous window
exactly when `7 ≤ (D - row.date) < 14`; 14 consecutive daily rows anchored at
`D` partition exactly into 7 last rows and 7 previous rows, with no overlap
and no drops; rows more than 13 days before `D` land in neither window. -/
theorem split_rows_by_window_spec (rows : List MetricRow) (D : Int) :
    (∀ r, r ∈ (split_rows_by_window rows D).1 ↔
      r ∈ rows ∧ 0 ≤ D - r.date ∧ D - r.date < 7) ∧
    (∀ r, r ∈ (split_rows_by_window rows D).2 ↔
      r ∈ rows ∧ 7 ≤ D - r.date ∧ D - r.date < 14) ∧
    (∀ f : Nat → MetricRow, (∀ i : Nat, (f i).date = D - (i : Int)) →
      split_rows_by_window ((List.range 14).map f) D =
        ((List.range 7).map f, (List.range 7).map (fun i => f (7 + i)))) ∧
    (∀ r ∈ rows, 13 < D - r.date →
      r ∉ (split_rows_by_window rows D).1 ∧ r ∉ (split_rows_by_window rows D).2) := by
  have hDi : ∀ i : Nat, D - (D - (i : Int)) = (i : Int) := fun i => by ring
  refine ⟨?_, ?_, ?_, ?_⟩
  · intro r
    rw [split_rows_by_window_fst]
    simp [List.mem_filter, HALF_ANALYSIS_WINDOW, and_comm]
  · intro r
    rw [split_rows_by_window_snd]
    simp [List.mem_filter, HALF_ANALYSIS_WINDOW, ANALYSIS_WINDOW_DAYS, and_comm]
  · intro f hf
    rw [show List.range 14 = [0, 1, 2, 3, 4, 5, 6, 7, 8, 9, 10, 11, 12, 13] from rfl,
      show List.range 7 = [0, 1, 2, 3, 4, 5, 6] from rfl]
    simp only [List.map_cons, List.map_nil, split_rows_by_window,
      HALF_ANALYSIS_WINDOW, ANALYSIS_WINDOW_DAYS, hf, hDi]
    norm_num
  · intro r hr h13
    constructor
    · rw [split_rows_by_window_fst]
      simp only [List.mem_filter, decide_eq_true_eq, HALF_ANALYSIS_WINDOW]
      exact fun hmem => absurd hmem.2.2 (by omega)
    · rw [split_rows_by_window_snd]
      simp only [List.mem_filter, decide_eq_true_eq, ANALYSIS_WINDOW_DAYS]
      exact fun hmem => absurd hmem.2.2 (by omega)

/-- Witness for C6: the 14-row family `mkRow14` anchored at 13 splits into
its first seven and last seven rows. -/
theorem split_rows_by_window_spec_witness :
    (split_rows_by_window ((List.range 14).map mkRow14) 13 =
      ((List.range 7).map mkRow14, (List.range 7).map (fun i => mkRow14 (7 + i)))) ∧
    (mkRow14 0 ∉ (split_rows_by_window [mkRow14 0] 27).1 ∧
      mkRow14 0 ∉ (split_rows_by_window [mkRow14 0] 27).2) :=
  ⟨(split_rows_by_window_spec ((List.range 14).map mkRow14) 13).2.2.1 mkRow14 (fun _ => rfl),
   (split_rows_by_window_spec [mkRow14 0] 27).2.2.2 (mkRow14 0)
     (List.mem_singleton_self _) (by decide)⟩

/-- C7: aggregation returns the per-window sums of clicks and impressions,
recomputes CTR as `sum(clicks) / sum(impressions)` from those sums, and takes
the average position as the arithmetic mean of the positions of exactly the
rows that report one. -/
theorem aggregate_metrics_spec (rows : List MetricRow) :
    (aggregate_metrics rows).clicks = (rows.map (fun r => r.clicks.getD 0)).sum ∧
    (aggregate_metrics rows).impressions = (rows.map (fun r => r.impressions.getD 0)).sum ∧
    (0 < (rows.map (fun r => r.impressions.getD 0)).sum →
      (aggregate_metrics rows).ctr =
        (((rows.map (fun r => r.clicks.getD 0)).sum : Nat) : Rat) /
          (((rows.map (fun r => r.impressions.getD 0)).sum : Nat) : Rat)) ∧
    (rows.filterMap MetricRow.position ≠ [] →
      (aggregate_metrics rows).avg_position =
        (rows.filterMap MetricRow.position).sum /
          ((rows.filterMap MetricRow.position).length : Rat)) := by
  have h := aggStep_foldl rows ⟨0, 0, 0, 0⟩
  refine ⟨?_, ?_, ?_, ?_⟩
  · show (rows.foldl aggStep ⟨0, 0, 0, 0⟩).clicks = _
    rw [h.1]
    simp
  · show (rows.foldl aggStep ⟨0, 0, 0, 0⟩).impressions = _
    rw [h.2.1]
    simp
  · intro hi
    show (if (rows.foldl aggStep ⟨0, 0, 0, 0⟩).impressions > 0 then _ else _) = _
    rw [if_pos (by rw [h.2.1]; simpa using hi), h.1, h.2.1]
    norm_num
  · intro hp
    have hlen : 0 < (rows.filterMap MetricRow.position).length := List.length_pos.mpr hp
    show (if (rows.foldl aggStep ⟨0, 0, 0, 0⟩).position_days > 0 then _ else _) = _
    rw [if_pos (by rw [h.2.2.2]; simpa using hlen), h.2.2.1, h.2.2.2]
    norm_num

/-- Witness for C7: on the concrete window `aggRows`, the CTR is the ratio of
the sums and the average position is the mean of the reported positions. -/
theorem aggregate_metrics_spec_witness :
    (aggregate_metrics aggRows).ctr =
      (((aggRows.map (fun r => r.clicks.getD 0)).sum : Nat) : Rat) /
        (((aggRows.map (fun r => r.impressions.getD 0)).sum : Nat) : Rat) ∧
    (aggregate_metrics aggRows).avg_position =
      (aggRows.filterMap MetricRow.position).sum /
        ((aggRows.filterMap MetricRow.position).length : Rat) :=
  ⟨(aggregate_metrics_spec aggRows).2.2.1 (by decide),
   (aggregate_metrics_spec aggRows).2.2.2 (by decide)⟩

/-- Counterexample for C8: with `previous = 3`, the implementation rounds to
two decimal places, so the result differs from the exact percentage
`(current - previous) / previous * 100`. -/
theorem safe_delta_pct_rounding_counterexample :
    safe_delta_pct 1 3 ≠ ((1 : Rat) - 3) / 3 * 100 := by
  norm_num [safe_delta_pct, pyRound2, roundHalfEven]

/-- C8 (amended): `safe_delta_pct` returns the exact percentage rounded to
two decimal places when `previous > 0`, 100 when `previous = 0 < current`,
and 0 when both are 0; in particular the claimed concrete values hold. -/
theorem safe_delta_pct_spec (current previous : Rat) :
    (previous > 0 →
      safe_delta_pct current previous = pyRound2 ((current - previous) / previous * 100)) ∧
    (previous = 0 → 0 < current → safe_delta_pct current previous = 100) ∧
    (previous = 0 → current = 0 → safe_delta_pct current previous = 0) ∧
    safe_delta_pct 0 0 = 0 ∧
    (0 < current → safe_delta_pct current 0 = 100) ∧
    safe_delta_pct 85 100 = -15 := by
  refine ⟨?_, ?_, ?_, ?_, ?_, ?_⟩
  · intro hp
    rw [safe_delta_pct, if_pos hp]
  · intro hp hc
    rw [safe_delta_pct, if_neg (by rw [hp]; exact lt_irrefl 0), if_pos hc]
  · intro hp hc
    rw [safe_delta_pct, if_neg (by rw [hp]; exact lt_irrefl 0), if_neg (by rw [hc]; exact lt_irrefl 0)]
  · norm_num [safe_delta_pct]
  · intro hc
    rw [safe_delta_pct, if_neg (lt_irrefl 0), if_pos hc]
  · norm_num [safe_delta_pct, pyRound2, roundHalfEven]

/-- Witness for C8: at `(85, 100)` the `previous > 0` branch applies and
produces the rounded exact percentage. -/
theorem safe_delta_pct_spec_witness :
    safe_delta_pct 85 100 = pyRound2 ((85 - 100) / 100 * 100) :=
  (safe_delta_pct_spec 85 100).1 (by norm_num)

/-- C4: the trigger predicate holds exactly when the previous-window
impressions reach the noise floor of 100 and the delta is at most -10; the
`(prev, last) = (1000, 850)` scenario triggers while `(50, 10)` does not. -/
theorem should_trigger_alert_spec (c : Comparison) :
    (should_trigger_alert c = true ↔ 100 ≤ c.prev_7_impressions ∧ c.delta_pct ≤ -10) ∧
    should_trigger_alert ⟨1000, 850, safe_delta_pct 850 1000⟩ = true ∧
    should_trigger_alert ⟨50, 10, safe_delta_pct 10 50⟩ = false := by
  refine ⟨?_, ?_, ?_⟩
  · simp only [should_trigger_alert]
    split_ifs with h1 h2
    · simp only [Bool.false_eq_true, false_iff]
      exact fun hc => absurd hc.1 (by omega)
    · simp only [true_iff]
      exact ⟨by omega, h2⟩
    · simp only [Bool.false_eq_true, false_iff]
      exact fun hc => absurd hc.2 h2
  · norm_num [should_trigger_alert, safe_delta_pct, pyRound2, roundHalfEven]
  · norm_num [should_trigger_alert]

/-- One start attempt, modelled as an atomic transaction, preserves the
single-flight invariant. -/
theorem start_step_preserves_singleFlight (now : Int) (freshId : Nat)
    (db : List PipelineRun) (account : Nat) (hInv : singleFlightInv db) :
    singleFlightInv (start_pipeline_run now freshId db account).1 := by
  intro a
  simp only [start_pipeline_run]
  by_cases hAny : db.any (fun r => decide (r.account_id = account) && r.is_running) = true
  · rw [if_pos hAny]
    exact hInv a
  · rw [if_neg hAny]
    have hzero : db.countP (fun r => decide (r.account_id = account) && r.is_running) = 0 := by
      rw [List.countP_eq_zero]
      intro r hr hpr
      exact hAny (List.any_eq_true.mpr ⟨r, hr, hpr⟩)
    show activeRunCount _ a ≤ 1
    rw [activeRunCount, List.countP_append]
    by_cases ha : a = account
    · subst ha
      rw [hzero]
      simp [List.countP_cons]
    · have h1 : activeRunCount db a ≤ 1 := hInv a
      rw [activeRunCount] at h1
      have h2 : (decide (account = a) : Bool) = false := by
        simp
        exact fun h => ha h.symm
      simp only [List.countP_cons, List.countP_nil, h2]
      simpa using h1

/-- C1: the start operation refuses with the already-running error exactly
when the account already holds an active run, and any serialized sequence of
start attempts (the FOR-UPDATE transaction makes each attempt atomic)
preserves the at-most-one-active-run-per-account invariant. -/
theorem start_pipeline_run_single_flight (now : Int) (freshId : Nat)
    (db : List PipelineRun) (account : Nat) (hInv : singleFlightInv db) :
    singleFlightInv (start_pipeline_run now freshId db account).1 ∧
    ((start_pipeline_run now freshId db account).2 =
        Except.error "Pipeline is already running for this account" ↔
      ∃ r ∈ db, r.account_id = account ∧ r.is_running = true) ∧
    ∀ ops : List (Int × Nat × Nat),
      singleFlightInv
        (ops.foldl (fun s o => (start_pipeline_run o.1 o.2.1 s o.2.2).1) db) := by
  refine ⟨start_step_preserves_singleFlight now freshId db account hInv, ?_, ?_⟩
  · simp only [start_pipeline_run]
    by_cases hAny : db.any (fun r => decide (r.account_id = account) && r.is_running) = true
    · rw [if_pos hAny]
      simp only [true_iff]
      obtain ⟨r, hr, hpr⟩ := List.any_eq_true.mp hAny
      simp only [Bool.and_eq_true, decide_eq_true_eq] at hpr
      exact ⟨r, hr, hpr.1, hpr.2⟩
    · rw [if_neg hAny]
      simp only [reduceCtorEq, false_iff]
      intro ⟨r, hr, h1, h2⟩
      exact hAny (List.any_eq_true.mpr ⟨r, hr, by simp [h1, h2]⟩)
  · suffices haux : ∀ (ops : List (Int × Nat × Nat)) (s : List PipelineRun),
        singleFlightInv s →
        singleFlightInv (ops.foldl (fun s o => (start_pipeline_run o.1 o.2.1 s o.2.2).1) s) from
      fun ops => haux ops db hInv
    intro ops
    induction ops with
    | nil => exact fun s hs => hs
    | cons o rest ih =>
      intro s hs
      exact ih _ (start_step_preserves_singleFlight o.1 o.2.1 s o.2.2 hs)

/-- Witness for C1: starting on an empty table keeps the invariant, and the
result is not the already-running error because no active run exists. -/
theorem start_pipeline_run_single_flight_witness :
    singleFlightInv (start_pipeline_run 0 1 [] 5).1 ∧
    ((start_pipeline_run 0 1 [] 5).2 =
        Except.error "Pipeline is already running for this account" ↔
      ∃ r ∈ ([] : List PipelineRun), r.account_id = 5 ∧ r.is_running = true) :=
  ⟨(start_pipeline_run_single_flight 0 1 [] 5 (fun _ => by simp [activeRunCount])).1,
   (start_pipeline_run_single_flight 0 1 [] 5 (fun _ => by simp [activeRunCount])).2.1⟩

/-- C2 (code-bug evidence): with a stale active run in the table, the start
operation raises the already-running error and leaves the stale run active,
untouched (`is_running` still true, no error recorded, no `completed_at`),
instead of force-terminating it first; nothing in `db_persistence.py` reaps
stale runs, although `verify_hardening.py` calls a `cleanup_stale_runs`
method that does not exist. -/
theorem start_pipeline_run_does_not_reap :
    run_is_stale 30 staleRun = true ∧
    start_pipeline_run 30 2 [staleRun] 7 =
      ([staleRun], Except.error "Pipeline is already running for this account") ∧
    staleRun.is_running = true ∧ staleRun.error = none ∧ staleRun.completed_at = none :=
  ⟨rfl, rfl, rfl, rfl, rfl⟩

/-- C3 (code-bug evidence): the update's WHERE clause checks only
`id = run_id AND account_id = account`, so a write against a run whose
`is_running` flag is already false still applies — it overwrites
`current_step` (the `test_atomic_guards` zombie scenario) and can even flip
`is_running` back to true — contradicting the claimed
`AND is_running = true` guard under which such writes affect zero rows. -/
theorem update_pipeline_state_zombie_write :
    finishedRun.is_running = false ∧
    update_pipeline_state 50 [finishedRun] 7 1 none none (some "Zombie Step")
        none none none none none
      = [{ finishedRun with current_step := some "Zombie Step", updated_at := 50 }] ∧
    update_pipeline_state 60 [finishedRun] 7 1 (some true) none none
        none none none none none
      = [{ finishedRun with is_running := true, updated_at := 60 }] :=
  ⟨rfl, rfl, rfl⟩

/-- C10: an update writes exactly the columns whose argument is non-None,
always sets `updated_at`, never touches `id`, `account_id` or `started_at`,
leaves every None-argument column at its previous value (so a non-null error
message can never be cleared back to null through this operation), and leaves
rows of other runs unchanged. -/
theorem update_pipeline_state_frame (now : Int) (db : List PipelineRun)
    (account_id run_id : Nat) (iro : Option Bool) (pho cso : Option String)
    (pco pto : Option Int) (cmo : Option (List String)) (ero : Option String)
    (cao : Option Int) (i : Nat) (hi : i < db.length)
    (hi2 : i < (update_pipeline_state now db account_id run_id iro pho cso pco pto
      cmo ero cao).length) :
    ((db[i].id = run_id ∧ db[i].account_id = account_id →
      (update_pipeline_state now db account_id run_id iro pho cso pco pto
          cmo ero cao)[i] =
        { db[i] with
          is_running := iro.getD db[i].is_running
          phase := pho.getD db[i].phase
          current_step := sqlSet cso db[i].current_step
          progress_current := sqlSet pco db[i].progress_current
          progress_total := sqlSet pto db[i].progress_total
          completed_steps := sqlSet cmo db[i].completed_steps
          error := sqlSet ero db[i].error
          completed_at := sqlSet cao db[i].completed_at
          updated_at := now }) ∧
     (db[i].id = run_id ∧ db[i].account_id = account_id → ero = none →
      (update_pipeline_state now db account_id run_id iro pho cso pco pto
          cmo ero cao)[i].error = db[i].error) ∧
     (¬ (db[i].id = run_id ∧ db[i].account_id = account_id) →
      (update_pipeline_state now db account_id run_id iro pho cso pco pto
          cmo ero cao)[i] = db[i])) := by
  have hmap :
      (update_pipeline_state now db account_id run_id iro pho cso pco pto cmo ero cao)[i] =
        (fun r =>
          if r.id = run_id ∧ r.account_id = account_id then
            { r with
              is_running := iro.getD r.is_running
              phase := pho.getD r.phase
              current_step := sqlSet cso r.current_step
              progress_current := sqlSet pco r.progress_current
              progress_total := sqlSet pto r.progress_total
              completed_steps := sqlSet cmo r.completed_steps
              error := sqlSet ero r.error
              completed_at := sqlSet cao r.completed_at
              updated_at := now }
          else r) db[i] := by
    simp only [update_pipeline_state]
    rw [List.getElem_map]
  refine ⟨?_, ?_, ?_⟩
  · intro hc
    rw [hmap]
    dsimp only
    rw [if_pos hc]
  · intro hc hero
    rw [hmap]
    dsimp only
    rw [if_pos hc, hero]
    rfl
  · intro hc
    rw [hmap]
    dsimp only
    rw [if_neg hc]

/-- Witness for C10: updating only `phase` bumps the heartbeat, writes the
new phase, and leaves the existing error message in place. -/
theorem update_pipeline_state_frame_witness :
    ((update_pipeline_state 9 [baseRun] 4 3 none (some "analysis") none none none
        none none none).get ⟨0, by decide⟩) =
      { baseRun with phase := "analysis", updated_at := 9 } ∧
    ((update_pipeline_state 9 [baseRun] 4 3 none (some "analysis") none none none
        none none none).get ⟨0, by decide⟩).error = baseRun.error ∧
    ((update_pipeline_state 9 [baseRun] 99 3 none (some "analysis") none none none
        none none none).get ⟨0, by decide⟩) = baseRun :=
  ⟨(update_pipeline_state_frame 9 [baseRun] 4 3 none (some "analysis") none none none
      none none none 0 (by decide) (by decide)).1 ⟨rfl, rfl⟩,
   (update_pipeline_state_frame 9 [baseRun] 4 3 none (some "analysis") none none none
      none none none 0 (by decide) (by decide)).2.1 ⟨rfl, rfl⟩ rfl,
   (update_pipeline_state_frame 9 [baseRun] 99 3 none (some "analysis") none none none
      none none none 0 (by decide) (by decide)).2.2 (by decide)⟩

/-- Whenever an alert with the same key was triggered within the last 24
hours, the detector leaves the table unchanged and returns None, whether or
not the trigger predicate holds. -/
theorem detect_skip_of_recent (now : Int) (today : Int) (account property : Nat)
    (metrics : List MetricRow) (alerts : List Alert)
    (h : ∃ a ∈ alerts, matchesAlertKey account property "impression_drop" a = true ∧
      now - a.triggered_at < 24 * 60) :
    detect_alert_for_property now today account property metrics alerts = (alerts, none) := by
  obtain ⟨a, ha, hkey, ht⟩ := h
  cases hcmp : compute_7v7_comparison metrics today with
  | none =>
    cases metrics with
    | nil => rfl
    | cons m rest => exact absurd hcmp (by simp [compute_7v7_comparison])
  | some c =>
    by_cases htr : should_trigger_alert c = true
    · have hfind : (fetch_recent_alert now account property "impression_drop" 24 alerts).isSome := by
        rw [fetch_recent_alert, List.find?_isSome]
        exact ⟨a, ha, by simp [hkey]; omega⟩
      obtain ⟨x, hx⟩ := Option.isSome_iff_exists.mp hfind
      simp [detect_alert_for_property, hcmp, htr, hx]
    · simp [detect_alert_for_property, hcmp, htr]

/-- C5: when a matching alert already exists within the last 24 hours the
detector inserts nothing and returns None even if the trigger predicate
holds; and starting from a table with no matching alert, two triggering
passes within 24 hours leave exactly one matching alert row, the second pass
changing nothing and returning None. -/
theorem detect_alert_for_property_dedup (t0 t1 : Int) (today : Int)
    (account property : Nat) (metrics : List MetricRow) (alerts : List Alert) :
    ((∃ a ∈ alerts, matchesAlertKey account property "impression_drop" a = true ∧
        t0 - a.triggered_at < 24 * 60) →
      detect_alert_for_property t0 today account property metrics alerts = (alerts, none)) ∧
    (alerts.countP (matchesAlertKey account property "impression_drop") = 0 →
     (∃ c, compute_7v7_comparison metrics today = some c ∧ should_trigger_alert c = true) →
     t0 ≤ t1 → t1 - t0 < 24 * 60 →
      (detect_alert_for_property t0 today account property metrics alerts).1.countP
          (matchesAlertKey account property "impression_drop") = 1 ∧
      detect_alert_for_property t1 today account property metrics
          (detect_alert_for_property t0 today account property metrics alerts).1 =
        ((detect_alert_for_property t0 today account property metrics alerts).1, none)) := by
  constructor
  · exact detect_skip_of_recent t0 today account property metrics alerts
  · intro h0 hex hle hlt
    obtain ⟨c, hcmp, htr⟩ := hex
    have hnone : fetch_recent_alert t0 account property "impression_drop" 24 alerts = none := by
      rw [fetch_recent_alert, List.find?_eq_none]
      intro a ha
      have hk := List.countP_eq_zero.mp h0 a ha
      simp only [Bool.and_eq_true, not_and]
      intro hkey
      exact absurd hkey hk
    have hr0 : detect_alert_for_property t0 today account property metrics alerts =
        (alerts ++ [{ id := alerts.length, account_id := account, property_id := property,
                      alert_type := "impression_drop",
                      prev_7_impressions := c.prev_7_impressions,
                      last_7_impressions := c.last_7_impressions, delta_pct := c.delta_pct,
                      triggered_at := t0, email_sent := false }], some alerts.length) := by
      simp [detect_alert_for_property, hcmp, htr, hnone, insert_alert]
    rw [hr0]
    constructor
    · rw [List.countP_append, h0]
      simp [matchesAlertKey]
    · apply detect_skip_of_recent
      refine ⟨_, List.mem_append_right alerts (List.mem_singleton_self _), ?_, ?_⟩
      · simp [matchesAlertKey]
      · show t1 - t0 < 24 * 60
        omega

/-- Witness for C5: on the concrete drop `wMetrics`, a pass at time 0 inserts
exactly one matching alert, and a second pass 100 minutes later changes
nothing and returns None. -/
theorem detect_alert_for_property_dedup_witness :
    ((detect_alert_for_property 0 0 1 2 wMetrics []).1.countP
        (matchesAlertKey 1 2 "impression_drop") = 1 ∧
      detect_alert_for_property 100 0 1 2 wMetrics
          (detect_alert_for_property 0 0 1 2 wMetrics []).1 =
        ((detect_alert_for_property 0 0 1 2 wMetrics []).1, none)) ∧
    detect_alert_for_property 100 0 1 2 wMetrics [wAlert] = ([wAlert], none) :=
  ⟨(detect_alert_for_property_dedup 0 100 0 1 2 wMetrics []).2 (by decide)
    ⟨⟨700, 350, safe_delta_pct ((350 : Nat) : Rat) ((700 : Nat) : Rat)⟩, rfl,
      by norm_num [should_trigger_alert, safe_delta_pct, pyRound2, roundHalfEven]⟩
    (by decide) (by decide),
   (detect_alert_for_property_dedup 100 100 0 1 2 wMetrics [wAlert]).1
    ⟨wAlert, List.mem_singleton_self _, by decide, by decide⟩⟩

/-- C9: when the recipient already has a `sent` delivery for the same
account and property whose `sent_at` lies within the last 3 days, the
dispatcher marks the delivery suppressed and attempts no provider send; when
every such send is older than 3 days, a provider send is attempted. -/
theorem process_unsent_delivery_cooldown (now : Int) (db : DispatchDB) (alert : Alert)
    (d : AlertDelivery) (ok : Bool) :
    ((∃ p ∈ db.deliveries, p.account_id = alert.account_id ∧ p.email = d.email ∧
        p.state = DeliveryState.sent ∧
        (∃ a ∈ db.alerts, a.id = p.alert_id ∧ a.property_id = alert.property_id) ∧
        ∃ t, p.sent_at = some t ∧ now - t < 3 * 1440) →
      process_unsent_delivery now db alert d ok = (mark_delivery_suppressed db d.id, false) ∧
      ∀ q ∈ (process_unsent_delivery now db alert d ok).1.deliveries, q.id = d.id →
        q.state = DeliveryState.suppressed) ∧
    ((∀ p ∈ db.deliveries, p.account_id = alert.account_id → p.email = d.email →
        p.state = DeliveryState.sent →
        (∃ a ∈ db.alerts, a.id = p.alert_id ∧ a.property_id = alert.property_id) →
        ∀ t, p.sent_at = some t → 3 * 1440 < now - t) →
      (process_unsent_delivery now db alert d ok).2 = true) := by
  constructor
  · intro hex
    obtain ⟨p, hp, h1, h2, h3, h4, t, ht, htlt⟩ := hex
    have hcd : is_recipient_in_cooldown now d.email alert.account_id alert.property_id
        COOLDOWN_DAYS db = true := by
      rw [is_recipient_in_cooldown, List.any_eq_true]
      refine ⟨p, hp, ?_⟩
      simp only [Bool.and_eq_true, decide_eq_true_eq]
      refine ⟨⟨⟨⟨h1, h2⟩, h3⟩, ?_⟩, ?_⟩
      · rw [List.any_eq_true]
        obtain ⟨a, ha, ha1, ha2⟩ := h4
        exact ⟨a, ha, by simp [ha1, ha2]⟩
      · rw [ht]
        simp only [decide_eq_true_eq]
        show now - t < COOLDOWN_DAYS * 1440
        rw [COOLDOWN_DAYS]
        omega
    have hres : process_unsent_delivery now db alert d ok =
        (mark_delivery_suppressed db d.id, false) := by
      rw [process_unsent_delivery, if_pos hcd]
    refine ⟨hres, ?_⟩
    intro q hq hqid
    rw [hres] at hq
    simp only [mark_delivery_suppressed, List.mem_map] at hq
    obtain ⟨q0, hq0, rfl⟩ := hq
    by_cases hid : q0.id = d.id
    · rw [if_pos hid]
    · rw [if_neg hid] at hqid ⊢
      exact absurd hqid hid
  · intro hall
    have hcd : is_recipient_in_cooldown now d.email alert.account_id alert.property_id
        COOLDOWN_DAYS db = false := by
      rw [is_recipient_in_cooldown, List.any_eq_false]
      intro p hp hpcontra
      simp only [Bool.and_eq_true, decide_eq_true_eq] at hpcontra
      obtain ⟨⟨⟨⟨h1, h2⟩, h3⟩, h4⟩, h5⟩ := hpcontra
      obtain ⟨a, ha, haconj⟩ := List.any_eq_true.mp h4
      simp only [Bool.and_eq_true, decide_eq_true_eq] at haconj
      cases hs : p.sent_at with
      | none => rw [hs] at h5; exact absurd h5 (by simp)
      | some t =>
        rw [hs] at h5
        simp only [decide_eq_true_eq] at h5
        have hgt := hall p hp h1 h2 h3 ⟨a, ha, haconj.1, haconj.2⟩ t hs
        rw [COOLDOWN_DAYS] at h5
        omega
    rw [process_unsent_delivery, if_neg (by rw [hcd]; simp)]
    cases ok with
    | true => rfl
    | false => rfl

/-- Witness for C9: with a send one day old for the same recipient and
property, the dispatcher suppresses the new delivery without attempting a
provider send. -/
theorem process_unsent_delivery_cooldown_witness :
    (process_unsent_delivery 0 wDispatchDB wAlert wUnsentDelivery true =
      (mark_delivery_suppressed wDispatchDB 6, false)) ∧
    (process_unsent_delivery 0 wStaleDB wAlert wUnsentDelivery true).2 = true :=
  ⟨((process_unsent_delivery_cooldown 0 wDispatchDB wAlert wUnsentDelivery true).1
    ⟨wSentDelivery, List.mem_cons_self _ _, rfl, rfl, rfl,
      ⟨wOldAlert, List.mem_cons_self _ _, rfl, rfl⟩,
      ⟨-1440, rfl, by decide⟩⟩).1,
   (process_unsent_delivery_cooldown 0 wStaleDB wAlert wUnsentDelivery true).2
    (by
      intro p hp _ _ h3 _ t ht
      rcases List.mem_cons.mp hp with h | h
      · have hteq : t = -5000 := by
          rw [h] at ht
          exact (Option.some_inj.mp ht).symm
        omega
      · rcases List.mem_cons.mp h with h2 | h2
        · rw [h2] at h3
          exact absurd h3 (by decide)
        · exact absurd h2 (List.not_mem_nil p))⟩
